import Mathlib

/-!
Verification development for the validator-keys-tool key-lifecycle and
manifest-signing engine.

The embedding follows the C++ sources:
  * `src/ValidatorKeys.cpp` / `ValidatorKeys.h`: the `ValidatorKeys` class
    (master identity store) with `make_ValidatorKeys` (load from a parsed
    key record), `writeToFile` (whose pure record-building part is
    `ValidatorKeys.toRecord` here), and `createEphemeralKeys` (the manifest
    builder).
  * `src/main.cpp` `signManifest` lines 80-95: the sequence-advance /
    revocation logic, embedded as `advanceSequence` / `revokeSequence`.

The cryptographic primitives (`generateSecretKey`, `derivePublicKey`,
`sign`, `verify`), the base58 token codec and the `STObject` byte
serializer live in the external ripple-libpp submodule, not in the core
sources; they are modelled symbolically from the spec as an ideal signing
capability and lossless codecs (see the individual doc comments).
C++ `throw std::runtime_error` failures are embedded as typed
`Except` errors following the spec's error taxonomy; the mapping from
exception message to error constructor is noted on each definition.
-/

/-- Key-type enumeration, from ripple-libpp `KeyType.h` as used by the tool:
the closed set {ed25519, secp256k1} plus the `invalid` value returned by
`keyTypeFromString` for unrecognized strings. -/
inductive KeyType where
  | ed25519
  | secp256k1
  | invalid
deriving DecidableEq, Repr

/-- Modelled from the spec: the key-type string tags used in the persisted
record (`key_type` field), one of two closed enum string tags. -/
def keyTypeToString : KeyType → String
  | .ed25519 => "ed25519"
  | .secp256k1 => "secp256k1"
  | .invalid => "invalid"

/-- Modelled from the spec: inverse of the key-type string tag; anything
outside the closed set maps to `KeyType.invalid` (ripple-libpp
`keyTypeFromString`). -/
def keyTypeFromString (s : String) : KeyType :=
  if s = "ed25519" then .ed25519
  else if s = "secp256k1" then .secp256k1
  else .invalid

/-- Modelled from the spec: an opaque secret-key value (external signing
capability); represented symbolically by a natural number. -/
structure SecretKey where
  val : Nat
deriving DecidableEq, Repr

/-- Modelled from the spec: a random seed from which an ephemeral secret is
deterministically regenerated. -/
structure Seed where
  val : Nat
deriving DecidableEq, Repr

/-- Modelled from the spec: a public key, determined by deterministic
derivation from a secret key and a key type (symbolic model: the
derivation is injective and keeps both components). -/
structure PublicKey where
  kt : KeyType
  sk : SecretKey
deriving DecidableEq, Repr

/-- Modelled from the spec: "derive public key from secret" external
capability (`derivePublicKey` in ripple-libpp). -/
def derivePublicKey (kt : KeyType) (sk : SecretKey) : PublicKey :=
  ⟨kt, sk⟩

/-- Modelled from the spec: "generate secret from seed" external capability
(`generateSecretKey` in ripple-libpp); deterministic in (key type, seed). -/
def generateSecretKey (kt : KeyType) (seed : Seed) : SecretKey :=
  match kt with
  | .ed25519 => ⟨Nat.pair 0 seed.val⟩
  | .secp256k1 => ⟨Nat.pair 1 seed.val⟩
  | .invalid => ⟨Nat.pair 2 seed.val⟩

/-- Modelled from the spec: keypair generation (`generateKeyPair`), a
secret from the seed together with its derived public key, returned as
(public, secret) as in ripple-libpp. -/
def generateKeyPair (kt : KeyType) (seed : Seed) : PublicKey × SecretKey :=
  let sk := generateSecretKey kt seed
  (derivePublicKey kt sk, sk)

/-- Canonical field tags of the manifest `STObject`, in the canonical
serialization order used by the tool: Sequence, PublicKey, SigningPubKey,
Signature, MasterSignature. -/
inductive FTag where
  | seqT
  | pkT
  | spkT
  | sigT
  | msigT
deriving DecidableEq, Repr

/-- Modelled from the spec: symbolic byte-buffer contents. A serialized
record is a `cat`/`nil` spine of `fld`-tagged field payloads; a signature
value is a symbolic term recording the signing key and the exact signed
data (ideal signature model: a signature verifies against exactly the key
and data it was created over). -/
inductive Msg where
  | num (n : Nat)
  | pkey (pk : PublicKey)
  | sig (kt : KeyType) (sk : SecretKey) (m : Msg)
  | fld (t : FTag) (m : Msg)
  | nil
  | cat (a b : Msg)
deriving DecidableEq, Repr

/-- The manifest record under construction (`STObject st(sfGeneric)` in
`ValidatorKeys::createEphemeralKeys`), with the five fields the tool uses;
absent fields are `none`. -/
structure STObject where
  sequence : Option Nat := none
  publicKey : Option PublicKey := none
  signingPubKey : Option PublicKey := none
  signature : Option Msg := none
  masterSignature : Option Msg := none
deriving DecidableEq, Repr

/-- The field tokens of a record, in canonical field order, each tagged
with its field tag (spec: "all fields in canonical order, each
length/type-tagged"). -/
def stTokens (st : STObject) : List Msg :=
  (match st.sequence with | some n => [Msg.fld .seqT (.num n)] | none => []) ++
  (match st.publicKey with | some pk => [Msg.fld .pkT (.pkey pk)] | none => []) ++
  (match st.signingPubKey with | some pk => [Msg.fld .spkT (.pkey pk)] | none => []) ++
  (match st.signature with | some m => [Msg.fld .sigT m] | none => []) ++
  (match st.masterSignature with | some m => [Msg.fld .msigT m] | none => [])

/-- Serialization of a record (`Serializer s; st.add(s)`): the canonical
token sequence as a symbolic byte buffer. -/
def serializeST (st : STObject) : Msg :=
  (stTokens st).foldr Msg.cat Msg.nil

/-- The `manifest` hash prefix constant ('M','A','N',0) prepended to the
signed data by the external `sign`/`verify` (ripple `HashPrefix::manifest`). -/
def manifestHashPfx : Nat := 0x4D414E00

/-- Modelled from the spec (§4.3 steps 3-4): the data actually signed for a
record: the hash prefix followed by the serialization of the record as it
is passed to the signing capability. -/
def signingData (pfx : Nat) (st : STObject) : Msg :=
  .cat (.num pfx) (serializeST st)

/-- The two signature fields a `sign` call can target (ripple `sfSignature`
by default, `sfMasterSignature` when passed explicitly). -/
inductive SigField where
  | sfSignature
  | sfMasterSignature
deriving DecidableEq, Repr

/-- Modelled from the spec: the external `ripple::sign(st, prefix, keyType,
secretKey, field)` capability. It signs the record as passed (prefix plus
canonical serialization of the fields currently present) and stores the
resulting signature in the designated field of the record. -/
def rippleSign (st : STObject) (pfx : Nat) (kt : KeyType) (sk : SecretKey)
    (field : SigField) : STObject :=
  let sigVal := Msg.sig kt sk (signingData pfx st)
  match field with
  | .sfSignature => { st with signature := some sigVal }
  | .sfMasterSignature => { st with masterSignature := some sigVal }

/-- Modelled from the spec: the external signature-verification capability:
a signature value verifies against a public key and a data buffer exactly
when it was created by the corresponding secret over that data. -/
def verifySig (pk : PublicKey) (dat : Msg) (s : Msg) : Bool :=
  match s with
  | .sig kt sk m => decide (derivePublicKey kt sk = pk ∧ m = dat)
  | _ => false

/-- Parse the `cat`/`nil` spine of a serialized buffer back into its token
list (the iteration of ripple `SerialIter`). -/
def msgSpine : Msg → Option (List Msg)
  | .nil => some []
  | .cat a b => (msgSpine b).map (a :: ·)
  | _ => none

/-- Consume a token list into a record, setting each tagged field
(`st.set (sit)` on the deserialized stream). -/
def readTokens : List Msg → STObject → Option STObject
  | [], st => some st
  | .fld .seqT (.num n) :: ts, st => readTokens ts { st with sequence := some n }
  | .fld .pkT (.pkey pk) :: ts, st => readTokens ts { st with publicKey := some pk }
  | .fld .spkT (.pkey pk) :: ts, st => readTokens ts { st with signingPubKey := some pk }
  | .fld .sigT m :: ts, st => readTokens ts { st with signature := some m }
  | .fld .msigT m :: ts, st => readTokens ts { st with masterSignature := some m }
  | _, _ => none

/-- Deserialization of a manifest buffer back into a record, as done by the
consumer/test (`SerialIter sit(...); st.set(sit)`). -/
def deserializeST (m : Msg) : Option STObject :=
  (msgSpine m).bind (fun ts => readTokens ts {})

/-- Modelled from the spec: the portable text encoding of the serialized
manifest (base64 in the reference implementation). The spec declares
encoding rules out of scope; only losslessness matters, so the encoding is
modelled as an opaque lossless wrapper. -/
structure EncodedManifest where
  payload : Msg
deriving DecidableEq, Repr

/-- Modelled from the spec: `beast::detail::base64_encode`. -/
def base64Encode (m : Msg) : EncodedManifest := ⟨m⟩

/-- Modelled from the spec: `beast::detail::base64_decode`. -/
def base64Decode (e : EncodedManifest) : Msg := e.payload

/-- The `EphemeralKeys` result of `ValidatorKeys::createEphemeralKeys`:
the seed, the encoded manifest, and the ephemeral validation public key. -/
structure EphemeralKeys where
  seed : Seed
  manifest : EncodedManifest
  validationPublicKey : PublicKey
deriving DecidableEq, Repr

/-- The `ValidatorKeys` class data members (`ValidatorKeys.h`): key type,
master secret, validation (master) public key, and the uint32 sequence
(embedded as `Nat`; theorems carry the `< 2^32` bound where it matters). -/
structure ValidatorKeys where
  keyType : KeyType
  masterSecret : SecretKey
  validationPublicKey : PublicKey
  sequence : Nat
deriving DecidableEq, Repr

/-- Embedding of `ValidatorKeys::operator==`: compares sequence, key type and validation
public key (the master secret is not compared). -/
def vkEq (a b : ValidatorKeys) : Bool :=
  decide (a.sequence = b.sequence ∧ a.keyType = b.keyType ∧
    a.validationPublicKey = b.validationPublicKey)

/-- The generating constructor `ValidatorKeys::ValidatorKeys(keyType)`:
fresh keypair from a (random) seed, sequence 0. The randomness source is
external; the seed is taken as a parameter. -/
def createValidatorKeys (kt : KeyType) (seed : Seed) : ValidatorKeys :=
  let kp := generateKeyPair kt seed
  { keyType := kt, masterSecret := kp.2, validationPublicKey := kp.1,
    sequence := 0 }

/-- Embedding of `ValidatorKeys::createEphemeralKeys(ephKeyType)` (ValidatorKeys.cpp
lines 154-178): generate an ephemeral secret from a fresh seed, derive its
public key, assemble the record {sequence, publicKey, signingPubKey}, sign
it with the ephemeral secret into `sfSignature`, sign the resulting record
with the master secret into `sfMasterSignature`, then serialize and
base64-encode. The member function is `const`; the embedding is a pure
function of the identity. The random seed is a parameter. -/
def createEphemeralKeys (keys : ValidatorKeys) (ephKeyType : KeyType)
    (seed : Seed) : EphemeralKeys :=
  let ssk := generateSecretKey ephKeyType seed
  let spk := derivePublicKey ephKeyType ssk
  let st0 : STObject :=
    { sequence := some keys.sequence
    , publicKey := some keys.validationPublicKey
    , signingPubKey := some spk }
  let st1 := rippleSign st0 manifestHashPfx ephKeyType ssk .sfSignature
  let st2 := rippleSign st1 manifestHashPfx keys.keyType keys.masterSecret
    .sfMasterSignature
  { seed := seed
  , manifest := base64Encode (serializeST st2)
  , validationPublicKey := spk }

/-- A parsed JSON scalar as far as the key file uses it: a string, an
integral value (the external parser yields `num` exactly for integers
representable as uint32, larger or fractional numbers arrive as `real`),
or a non-integral number. -/
inductive JVal where
  | str (s : String)
  | num (n : Nat)
  | real
deriving DecidableEq, Repr

/-- Embedding of `Json::Value::asString`: the string content, "" for non-strings. -/
def JVal.asString : JVal → String
  | .str s => s
  | _ => ""

/-- Embedding of `Json::Value::isIntegral`. -/
def JVal.isIntegral : JVal → Bool
  | .num _ => true
  | _ => false

/-- Embedding of `Json::Value::asUInt` (32-bit storage). -/
def JVal.asUInt : JVal → Nat
  | .num n => n % 4294967296
  | _ => 0

/-- The parsed key-file record: the fields the tool reads or writes
(`key_type`, `master_secret`, `validation_public_key`, `sequence`);
a field absent from the JSON object is `none` (`Json::Value::isMember`). -/
structure KeyRecord where
  key_type : Option JVal := none
  master_secret : Option JVal := none
  validation_public_key : Option JVal := none
  sequence : Option JVal := none
deriving DecidableEq, Repr

/-- Modelled from the spec: the external base58 token codec for secrets
(`toBase58(TOKEN_NODE_PRIVATE, sk)`), a self-describing textual encoding
carrying an embedded type tag; modelled as an injective encoding with the
tag character 'p'. -/
def toB58Priv (sk : SecretKey) : String :=
  String.mk ('p' :: List.replicate sk.val 's')

/-- Modelled from the spec: the external base58 secret decoder
(`parseBase58<SecretKey>(TOKEN_NODE_PRIVATE, s)`): partial inverse of
`toB58Priv`, failing on anything not carrying the secret type tag. -/
def parseB58Priv (s : String) : Option SecretKey :=
  match s.data with
  | 'p' :: rest => if rest.all (· = 's') then some ⟨rest.length⟩ else none
  | _ => none

/-- Modelled from the spec: the external base58 public-key encoder
(`toBase58(TOKEN_NODE_PUBLIC, pk)`); written to the record but never
parsed back by the tool. -/
def toB58Pub (pk : PublicKey) : String :=
  String.mk ('P' :: (keyTypeToString pk.kt).data ++ List.replicate pk.sk.val 's')

/-- The load-failure taxonomy of `make_ValidatorKeys` (each constructor
corresponds to one `throw std::runtime_error` site; the file-level
failures `Failed to open` / `Unable to parse` precede the record and are
outside the record-level embedding). -/
inductive LoadError where
  | MissingField (name : String)
  | InvalidKeyType
  | InvalidSecret
  | InvalidSequence
deriving DecidableEq, Repr

/-- Embedding of `ValidatorKeys::make_ValidatorKeys` (ValidatorKeys.cpp lines 71-120),
from the parsed record onward: check the required fields `key_type`,
`master_secret`, `sequence` in that order ("is missing ... field"), then
the key type ("contains invalid key type"), then decode the secret
("contains invalid master secret"), derive the validation public key from
the decoded secret, then check the sequence is integral ("contains invalid
sequence"). The `validation_public_key` field of the record is never
read. -/
def make_ValidatorKeys (rec : KeyRecord) : Except LoadError ValidatorKeys :=
  match rec.key_type, rec.master_secret, rec.sequence with
  | none, _, _ => .error (.MissingField "key_type")
  | some _, none, _ => .error (.MissingField "master_secret")
  | some _, some _, none => .error (.MissingField "sequence")
  | some jkt, some jms, some jseq =>
    let keyType := keyTypeFromString jkt.asString
    if keyType = .invalid then .error .InvalidKeyType
    else
      match parseB58Priv jms.asString with
      | none => .error .InvalidSecret
      | some masterSecret =>
        let validationPublicKey := derivePublicKey keyType masterSecret
        if ! jseq.isIntegral then .error .InvalidSequence
        else .ok
          { keyType := keyType
          , masterSecret := masterSecret
          , validationPublicKey := validationPublicKey
          , sequence := jseq.asUInt }

/-- The pure record-building part of `ValidatorKeys::writeToFile`
(ValidatorKeys.cpp lines 128-133): master secret and validation public key
in their base58 encodings, the key-type string tag, and the sequence as a
JSON unsigned integer. -/
def ValidatorKeys.toRecord (keys : ValidatorKeys) : KeyRecord :=
  { master_secret := some (.str (toB58Priv keys.masterSecret))
  , validation_public_key := some (.str (toB58Pub keys.validationPublicKey))
  , key_type := some (.str (keyTypeToString keys.keyType))
  , sequence := some (.num keys.sequence) }

/-- The sequence-error taxonomy of `signManifest` in main.cpp: the
"Sequence should exceed current sequence (%u)." throw is
`SequenceNotIncreasing` (carrying the current and requested values), the
"Sequence is already at maximum value. Master keys have been revoked."
throw is `SequenceExhausted`. -/
inductive SequenceError where
  | SequenceNotIncreasing (current requested : Nat)
  | SequenceExhausted
deriving DecidableEq, Repr

/-- Embedding of `std::numeric_limits<std::uint32_t>::max()`: the revoked sentinel. -/
def UINT32_MAX : Nat := 4294967295

/-- The sequence-advance logic of `signManifest` (main.cpp lines 80-95):
with an explicit requested sequence, fail with `SequenceNotIncreasing`
unless it strictly exceeds the current sequence, else set it; with no
requested sequence, fail with `SequenceExhausted` when the current
sequence is already at the uint32 maximum, else increment. The C++ throws
occur before the member is assigned, so on error the identity is
unchanged; the embedding returns the updated identity on success only. -/
def advanceSequence (keys : ValidatorKeys) (requested : Option Nat) :
    Except SequenceError ValidatorKeys :=
  match requested with
  | some s =>
    if s ≤ keys.sequence then
      .error (.SequenceNotIncreasing keys.sequence s)
    else
      .ok { keys with sequence := s }
  | none =>
    if keys.sequence = UINT32_MAX then
      .error .SequenceExhausted
    else
      .ok { keys with sequence := keys.sequence + 1 }

/-- The `revoke_master_keys` command (main.cpp lines 135-136): it calls
`signManifest(keyFile, max())`, i.e. requests an advance to the uint32
maximum. -/
def revokeSequence (keys : ValidatorKeys) : Except SequenceError ValidatorKeys :=
  advanceSequence keys (some UINT32_MAX)

/-- The in-memory identity after the advance step of `signManifest`,
reflecting that the C++ `throw` leaves the object as it was (check before
mutate): the updated identity on success, the original on error. -/
def advanceSequenceState (keys : ValidatorKeys) (requested : Option Nat) :
    ValidatorKeys :=
  match advanceSequence keys requested with
  | .ok k => k
  | .error _ => keys

/-- The (identity, result) pair of a `createEphemeralKeys` call: the member
function is declared `const` (and only reads the identity), so the
identity coming out of the call is the identity that went in. -/
def createEphemeralKeysCall (keys : ValidatorKeys) (ephKT : KeyType)
    (seed : Seed) : ValidatorKeys × EphemeralKeys :=
  (keys, createEphemeralKeys keys ephKT seed)

/-! ## Theorems -/

/-- C1, counterexample: with the sequence already at the revoked sentinel
4294967295, `revokeSequence` (an advance to `some 4294967295`) fails with
`SequenceNotIncreasing`, not with `SequenceExhausted`: the explicit-sequence
branch of `signManifest` checks `*sequence <= keys.sequence` and throws
"Sequence should exceed current sequence" before the exhaustion check is
ever reached. -/
theorem revoke_at_max_not_exhausted_cex :
    revokeSequence
      { keyType := .ed25519, masterSecret := ⟨0⟩,
        validationPublicKey := ⟨.ed25519, ⟨0⟩⟩, sequence := 4294967295 } =
      .error (.SequenceNotIncreasing 4294967295 4294967295) ∧
    revokeSequence
      { keyType := .ed25519, masterSecret := ⟨0⟩,
        validationPublicKey := ⟨.ed25519, ⟨0⟩⟩, sequence := 4294967295 } ≠
      .error .SequenceExhausted := by
  constructor
  · rfl
  · intro h
    simp [revokeSequence, advanceSequence, UINT32_MAX] at h

/-- C1 (amended): for every identity whose sequence equals 4294967295,
`revokeSequence` fails — but with
`SequenceNotIncreasing (current = 4294967295, requested = 4294967295)`,
not with `SequenceExhausted`. -/
theorem revoke_at_max_fails_not_increasing (keys : ValidatorKeys)
    (h : keys.sequence = UINT32_MAX) :
    revokeSequence keys =
      .error (.SequenceNotIncreasing UINT32_MAX UINT32_MAX) := by
  simp [revokeSequence, advanceSequence, h]

/-- Witness for `revoke_at_max_fails_not_increasing` at a concrete revoked
identity. -/
theorem revoke_at_max_fails_not_increasing_witness :
    revokeSequence
      { keyType := .ed25519, masterSecret := ⟨0⟩,
        validationPublicKey := ⟨.ed25519, ⟨0⟩⟩, sequence := UINT32_MAX } =
      .error (.SequenceNotIncreasing UINT32_MAX UINT32_MAX) :=
  revoke_at_max_fails_not_increasing _ rfl

/-- C2: for every identity and every explicitly requested uint32 sequence
`s`, `advanceSequence keys (some s)` succeeds and sets the sequence to `s`
exactly when `s > keys.sequence`; otherwise it fails with
`SequenceNotIncreasing` and the identity is left unchanged. -/
theorem advance_requested_monotonic (keys : ValidatorKeys) (s : Nat)
    (_hs : s ≤ UINT32_MAX) (_hcur : keys.sequence ≤ UINT32_MAX) :
    (keys.sequence < s →
      advanceSequence keys (some s) = .ok { keys with sequence := s }) ∧
    (¬ keys.sequence < s →
      advanceSequence keys (some s) =
        .error (.SequenceNotIncreasing keys.sequence s) ∧
      advanceSequenceState keys (some s) = keys) := by
  constructor
  · intro h
    simp [advanceSequence, Nat.not_le.mpr h]
  · intro h
    have hle : s ≤ keys.sequence := Nat.not_lt.mp h
    constructor
    · simp [advanceSequence, hle]
    · simp [advanceSequenceState, advanceSequence, hle]

/-- Witness for `advance_requested_monotonic`: an identity at sequence 10
with requested sequence 5 fails with `SequenceNotIncreasing` and is left
unchanged. -/
theorem advance_requested_monotonic_witness :
    advanceSequence
      { keyType := .ed25519, masterSecret := ⟨0⟩,
        validationPublicKey := ⟨.ed25519, ⟨0⟩⟩, sequence := 10 }
      (some 5) = .error (.SequenceNotIncreasing 10 5) ∧
    advanceSequenceState
      { keyType := .ed25519, masterSecret := ⟨0⟩,
        validationPublicKey := ⟨.ed25519, ⟨0⟩⟩, sequence := 10 }
      (some 5) =
      { keyType := .ed25519, masterSecret := ⟨0⟩,
        validationPublicKey := ⟨.ed25519, ⟨0⟩⟩, sequence := 10 } :=
  (advance_requested_monotonic _ 5 (by decide) (by decide)).2 (by decide)

/-- C3: for every identity with a uint32 sequence,
`advanceSequence keys none` returns the identity advanced to
`keys.sequence + 1` when `keys.sequence < 4294967295`, and fails with
`SequenceExhausted` exactly when `keys.sequence = 4294967295`. -/
theorem advance_default_increments (keys : ValidatorKeys)
    (_hcur : keys.sequence ≤ UINT32_MAX) :
    (keys.sequence < UINT32_MAX →
      advanceSequence keys none =
        .ok { keys with sequence := keys.sequence + 1 }) ∧
    (advanceSequence keys none = .error .SequenceExhausted ↔
      keys.sequence = UINT32_MAX) := by
  constructor
  · intro h
    simp [advanceSequence, Nat.ne_of_lt h]
  · constructor
    · intro h
      by_contra hne
      simp [advanceSequence, hne] at h
    · intro h
      simp [advanceSequence, h]

/-- Witness for `advance_default_increments`: an identity at sequence 0
advances to sequence 1, and an identity at the sentinel fails with
`SequenceExhausted`. -/
theorem advance_default_increments_witness :
    advanceSequence
      { keyType := .ed25519, masterSecret := ⟨0⟩,
        validationPublicKey := ⟨.ed25519, ⟨0⟩⟩, sequence := 0 }
      none =
      .ok { keyType := .ed25519, masterSecret := ⟨0⟩,
            validationPublicKey := ⟨.ed25519, ⟨0⟩⟩, sequence := 1 } :=
  (advance_default_increments _ (by decide)).1 (by decide)

/-- Helper: the required-field / validation pipeline of `make_ValidatorKeys`
never reads the `validation_public_key` field of the record. -/
theorem make_ValidatorKeys_ignores_vpk (rec : KeyRecord) (v : Option JVal) :
    make_ValidatorKeys { rec with validation_public_key := v } =
      make_ValidatorKeys rec := by
  cases rec
  rfl

/-- Helper: a successfully loaded identity has its validation public key
recomputed by derivation from the decoded master secret. -/
theorem make_ValidatorKeys_ok_derives (rec : KeyRecord) (vk : ValidatorKeys)
    (h : make_ValidatorKeys rec = .ok vk) :
    vk.validationPublicKey = derivePublicKey vk.keyType vk.masterSecret := by
  cases hkt : rec.key_type with
  | none => simp [make_ValidatorKeys, hkt] at h
  | some jkt =>
    cases hms : rec.master_secret with
    | none => simp [make_ValidatorKeys, hkt, hms] at h
    | some jms =>
      cases hsq : rec.sequence with
      | none => simp [make_ValidatorKeys, hkt, hms, hsq] at h
      | some jseq =>
        simp only [make_ValidatorKeys, hkt, hms, hsq] at h
        split at h
        · exact absurd h (by simp)
        · split at h
          · exact absurd h (by simp)
          · split at h
            · exact absurd h (by simp)
            · rw [Except.ok.injEq] at h
              subst h
              rfl

/-- Helper: the base58 secret codec round-trips. -/
theorem parseB58Priv_toB58Priv (sk : SecretKey) :
    parseB58Priv (toB58Priv sk) = some sk := by
  have hall : (List.replicate sk.val 's').all (fun c => decide (c = 's')) = true := by
    rw [List.all_eq_true]
    intro c hc
    simp [List.eq_of_mem_replicate hc]
  simp [parseB58Priv, toB58Priv, hall]

/-- Helper: the key-type string tag round-trips through
`keyTypeFromString`. -/
theorem keyTypeFromString_toString (kt : KeyType) :
    keyTypeFromString (keyTypeToString kt) = kt := by
  cases kt <;> rfl

/-- C6: every identity successfully loaded by `make_ValidatorKeys` has
`validationPublicKey = derivePublicKey keyType masterSecret`, recomputed
from the decoded secret; and the `validation_public_key` field of the
input record is never read — replacing it by anything leaves the load
result (and hence the invariant) unchanged. -/
theorem load_recomputes_public_key (rec : KeyRecord) (vk : ValidatorKeys)
    (v : Option JVal) (h : make_ValidatorKeys rec = .ok vk) :
    vk.validationPublicKey = derivePublicKey vk.keyType vk.masterSecret ∧
    make_ValidatorKeys { rec with validation_public_key := v } = .ok vk := by
  refine ⟨make_ValidatorKeys_ok_derives rec vk h, ?_⟩
  rw [make_ValidatorKeys_ignores_vpk]
  exact h

/-- Witness for `load_recomputes_public_key` at a concrete record carrying
a bogus `validation_public_key`. -/
theorem load_recomputes_public_key_witness :
    (ValidatorKeys.mk .ed25519 ⟨2⟩ ⟨.ed25519, ⟨2⟩⟩ 7).validationPublicKey =
      derivePublicKey (ValidatorKeys.mk .ed25519 ⟨2⟩ ⟨.ed25519, ⟨2⟩⟩ 7).keyType
        (ValidatorKeys.mk .ed25519 ⟨2⟩ ⟨.ed25519, ⟨2⟩⟩ 7).masterSecret ∧
    make_ValidatorKeys
      { key_type := some (.str "ed25519")
      , master_secret := some (.str (toB58Priv ⟨2⟩))
      , validation_public_key := some (.str "replaced")
      , sequence := some (.num 7) } =
      .ok (ValidatorKeys.mk .ed25519 ⟨2⟩ ⟨.ed25519, ⟨2⟩⟩ 7) :=
  load_recomputes_public_key
    { key_type := some (.str "ed25519")
    , master_secret := some (.str (toB58Priv ⟨2⟩))
    , validation_public_key := some (.str "bogus")
    , sequence := some (.num 7) }
    (ValidatorKeys.mk .ed25519 ⟨2⟩ ⟨.ed25519, ⟨2⟩⟩ 7)
    (some (.str "replaced")) rfl

/-- C7: saving any master identity with a valid key type, the derivation
invariant, and a uint32 sequence, and loading the resulting record,
succeeds and yields an identity equal to the original under
`ValidatorKeys::operator==`, i.e. equal in key type, sequence and
validation (master) public key. -/
theorem save_load_roundtrip (vk : ValidatorKeys) (hkt : vk.keyType ≠ .invalid)
    (hder : vk.validationPublicKey = derivePublicKey vk.keyType vk.masterSecret)
    (hseq : vk.sequence < 4294967296) :
    ∃ vk2, make_ValidatorKeys vk.toRecord = .ok vk2 ∧
      vkEq vk vk2 = true ∧
      vk2.keyType = vk.keyType ∧ vk2.sequence = vk.sequence ∧
      vk2.validationPublicKey = vk.validationPublicKey := by
  refine ⟨{ keyType := vk.keyType, masterSecret := vk.masterSecret,
            validationPublicKey := derivePublicKey vk.keyType vk.masterSecret,
            sequence := vk.sequence }, ?_, ?_, rfl, rfl, hder.symm⟩
  · simp [make_ValidatorKeys, ValidatorKeys.toRecord, JVal.asString,
      keyTypeFromString_toString, parseB58Priv_toB58Priv, hkt,
      JVal.isIntegral, JVal.asUInt, Nat.mod_eq_of_lt hseq]
  · simp [vkEq, hder]

/-- Witness for `save_load_roundtrip` at a freshly generated ed25519
identity. -/
theorem save_load_roundtrip_witness :
    ∃ vk2, make_ValidatorKeys (createValidatorKeys .ed25519 ⟨5⟩).toRecord =
        .ok vk2 ∧
      vkEq (createValidatorKeys .ed25519 ⟨5⟩) vk2 = true ∧
      vk2.keyType = (createValidatorKeys .ed25519 ⟨5⟩).keyType ∧
      vk2.sequence = (createValidatorKeys .ed25519 ⟨5⟩).sequence ∧
      vk2.validationPublicKey =
        (createValidatorKeys .ed25519 ⟨5⟩).validationPublicKey :=
  save_load_roundtrip (createValidatorKeys .ed25519 ⟨5⟩)
    (by decide) rfl (by decide)

/-- C8: `make_ValidatorKeys` validates the record in exactly this order,
reporting the first failure: missing `key_type`, then missing
`master_secret`, then missing `sequence` (each as `MissingField` naming
that key); then an unrecognized key type (`InvalidKeyType`); then an
undecodable master secret (`InvalidSecret`); then a non-integral sequence
(`InvalidSequence`). In particular a record whose key type and master
secret are both invalid reports `InvalidKeyType`. -/
theorem load_error_priority (rec : KeyRecord) :
    (rec.key_type = none →
      make_ValidatorKeys rec = .error (.MissingField "key_type")) ∧
    (∀ jkt, rec.key_type = some jkt → rec.master_secret = none →
      make_ValidatorKeys rec = .error (.MissingField "master_secret")) ∧
    (∀ jkt jms, rec.key_type = some jkt → rec.master_secret = some jms →
      rec.sequence = none →
      make_ValidatorKeys rec = .error (.MissingField "sequence")) ∧
    (∀ jkt jms jseq, rec.key_type = some jkt → rec.master_secret = some jms →
      rec.sequence = some jseq →
      keyTypeFromString jkt.asString = .invalid →
      make_ValidatorKeys rec = .error .InvalidKeyType) ∧
    (∀ jkt jms jseq, rec.key_type = some jkt → rec.master_secret = some jms →
      rec.sequence = some jseq →
      keyTypeFromString jkt.asString ≠ .invalid →
      parseB58Priv jms.asString = none →
      make_ValidatorKeys rec = .error .InvalidSecret) ∧
    (∀ jkt jms jseq sk, rec.key_type = some jkt → rec.master_secret = some jms →
      rec.sequence = some jseq →
      keyTypeFromString jkt.asString ≠ .invalid →
      parseB58Priv jms.asString = some sk →
      jseq.isIntegral = false →
      make_ValidatorKeys rec = .error .InvalidSequence) := by
  refine ⟨?_, ?_, ?_, ?_, ?_, ?_⟩
  · intro h
    simp [make_ValidatorKeys, h]
  · intro jkt h1 h2
    simp [make_ValidatorKeys, h1, h2]
  · intro jkt jms h1 h2 h3
    simp [make_ValidatorKeys, h1, h2, h3]
  · intro jkt jms jseq h1 h2 h3 h4
    simp [make_ValidatorKeys, h1, h2, h3, h4]
  · intro jkt jms jseq h1 h2 h3 h4 h5
    simp [make_ValidatorKeys, h1, h2, h3, h4, h5]
  · intro jkt jms jseq sk h1 h2 h3 h4 h5 h6
    simp [make_ValidatorKeys, h1, h2, h3, h4, h5, h6]

/-- Witness for `load_error_priority`: a record whose key type and master
secret are both invalid reports the key-type error. -/
theorem load_error_priority_witness :
    make_ValidatorKeys
      { key_type := some (.str "dummy keytype")
      , master_secret := some (.str "dummy secret")
      , sequence := some (.str "dummy sequence") } =
      .error .InvalidKeyType :=
  (load_error_priority
    { key_type := some (.str "dummy keytype")
    , master_secret := some (.str "dummy secret")
    , sequence := some (.str "dummy sequence") }).2.2.2.1
    (.str "dummy keytype") (.str "dummy secret") (.str "dummy sequence")
    rfl rfl rfl (by decide)

/-- C10: a record whose `sequence` field is the integral value 4294967295
(the revoked sentinel), with a valid key type and master secret, loads
successfully — yielding an already-revoked identity — whatever its
`validation_public_key` field holds. -/
theorem load_accepts_max_sequence (kt : KeyType) (sk : SecretKey)
    (v : Option JVal) (hkt : kt ≠ .invalid) :
    make_ValidatorKeys
      { key_type := some (.str (keyTypeToString kt))
      , master_secret := some (.str (toB58Priv sk))
      , validation_public_key := v
      , sequence := some (.num UINT32_MAX) } =
      .ok { keyType := kt, masterSecret := sk,
            validationPublicKey := derivePublicKey kt sk,
            sequence := UINT32_MAX } := by
  simp [make_ValidatorKeys, JVal.asString, keyTypeFromString_toString,
    parseB58Priv_toB58Priv, hkt, JVal.isIntegral, JVal.asUInt, UINT32_MAX]

/-- Witness for `load_accepts_max_sequence` at a concrete secp256k1 record. -/
theorem load_accepts_max_sequence_witness :
    make_ValidatorKeys
      { key_type := some (.str (keyTypeToString .secp256k1))
      , master_secret := some (.str (toB58Priv ⟨1⟩))
      , validation_public_key := some (.str "ignored")
      , sequence := some (.num UINT32_MAX) } =
      .ok { keyType := .secp256k1, masterSecret := ⟨1⟩,
            validationPublicKey := derivePublicKey .secp256k1 ⟨1⟩,
            sequence := UINT32_MAX } :=
  load_accepts_max_sequence .secp256k1 ⟨1⟩ (some (.str "ignored")) (by decide)

/-- C4: in every manifest produced by `createEphemeralKeys`, the master
signature was computed over the record that already contains the
ephemeral signature: decoding the manifest yields a record whose
`masterSignature` is a signature by the master secret over the signing
data of a record whose `signature` field holds exactly the embedded
ephemeral signature. -/
theorem master_signature_covers_ephemeral (keys : ValidatorKeys)
    (ephKT : KeyType) (seed : Seed) :
    ∃ st : STObject,
      deserializeST
        (base64Decode (createEphemeralKeys keys ephKT seed).manifest) =
        some st ∧
      ∃ (ephSig : Msg) (signedRec : STObject),
        st.signature = some ephSig ∧
        st.masterSignature =
          some (Msg.sig keys.keyType keys.masterSecret
            (signingData manifestHashPfx signedRec)) ∧
        signedRec.signature = some ephSig := by
  refine ⟨_, rfl, _, _, rfl, rfl, rfl⟩

/-- C5: decoding the manifest returned by `createEphemeralKeys` on a valid
master identity (one satisfying the derivation invariant) yields a record
whose ephemeral signature verifies against the embedded ephemeral public
key and whose master signature verifies against the embedded master
public key. -/
theorem manifest_signatures_verify (keys : ValidatorKeys)
    (ephKT : KeyType) (seed : Seed)
    (hder : keys.validationPublicKey =
      derivePublicKey keys.keyType keys.masterSecret) :
    ∃ st : STObject,
      deserializeST
        (base64Decode (createEphemeralKeys keys ephKT seed).manifest) =
        some st ∧
      ∃ (s1 s2 : Msg) (spk mpk : PublicKey),
        st.signature = some s1 ∧
        st.masterSignature = some s2 ∧
        st.signingPubKey = some spk ∧
        st.publicKey = some mpk ∧
        spk = (createEphemeralKeys keys ephKT seed).validationPublicKey ∧
        mpk = keys.validationPublicKey ∧
        verifySig spk
          (signingData manifestHashPfx
            { st with signature := none, masterSignature := none }) s1 =
          true ∧
        verifySig mpk
          (signingData manifestHashPfx { st with masterSignature := none })
          s2 = true := by
  refine ⟨_, rfl, _, _, _, _, rfl, rfl, rfl, rfl, rfl, rfl, ?_, ?_⟩
  · simp [verifySig]
  · simp [verifySig, hder]
    rfl

/-- Witness for `manifest_signatures_verify` at a freshly generated
ed25519 identity and a secp256k1 ephemeral key. -/
theorem manifest_signatures_verify_witness :
    ∃ st : STObject,
      deserializeST
        (base64Decode
          (createEphemeralKeys (createValidatorKeys .ed25519 ⟨0⟩)
            .secp256k1 ⟨1⟩).manifest) = some st ∧
      ∃ (s1 s2 : Msg) (spk mpk : PublicKey),
        st.signature = some s1 ∧
        st.masterSignature = some s2 ∧
        st.signingPubKey = some spk ∧
        st.publicKey = some mpk ∧
        spk = (createEphemeralKeys (createValidatorKeys .ed25519 ⟨0⟩)
          .secp256k1 ⟨1⟩).validationPublicKey ∧
        mpk = (createValidatorKeys .ed25519 ⟨0⟩).validationPublicKey ∧
        verifySig spk
          (signingData manifestHashPfx
            { st with signature := none, masterSignature := none }) s1 =
          true ∧
        verifySig mpk
          (signingData manifestHashPfx { st with masterSignature := none })
          s2 = true :=
  manifest_signatures_verify (createValidatorKeys .ed25519 ⟨0⟩)
    .secp256k1 ⟨1⟩ rfl

/-- C9: the manifest builder never touches the identity — the
`createEphemeralKeys` call returns the identity exactly as it went in
(`const` member, pure embedding) — and the sequence and master public key
embedded in the returned manifest are exactly the identity's values at
call time. -/
theorem builder_preserves_identity (keys : ValidatorKeys)
    (ephKT : KeyType) (seed : Seed) :
    (createEphemeralKeysCall keys ephKT seed).1 = keys ∧
    ∃ st : STObject,
      deserializeST
        (base64Decode (createEphemeralKeys keys ephKT seed).manifest) =
        some st ∧
      st.sequence = some keys.sequence ∧
      st.publicKey = some keys.validationPublicKey := by
  refine ⟨rfl, _, rfl, rfl, rfl⟩
